import Mathlib

/-
Shallow embedding of `proxy_app.py`, a single-endpoint Flask relay that
forwards chat-completion requests to one of three upstream LLM providers
(Gemini native protocol, OpenRouter, LLMost), translating bodies between the
Gemini-style canonical format and the OpenAI chat format, with a global
minimum-interval rate limiter for the Gemini provider.

Modelling conventions:
- Python JSON-ish values are the inductive `Json` (dicts are ordered
  association lists, mirroring Python dict insertion order).
- Fallible Python operations (`[0]` on an empty list, `.get` on a non-dict,
  `dict.pop` on a non-dict, ...) return `Except PyErr`; a raised Python
  exception is the `.error` case.
- Wall/monotonic clock instants and durations are rationals.  The points in
  time at which `time.monotonic()` is sampled are passed in as explicit
  parameters.
- The network is an oracle `OutboundCall → Except PyErr UpstreamResponse`:
  the handler builds the outbound request, and the oracle says what
  `requests.post` returned (or which transport exception it raised).  An
  `UpstreamResponse` carries the HTTP status, the raw body text, and the
  JSON parse of that body (`json = none` models `JSONDecodeError` from
  `response.json()`).
-/

/-- A JSON value as produced by `request.get_json()` / `response.json()`.
Objects are ordered association lists (Python dict insertion order). -/
inductive Json where
  | null
  | bool (b : Bool)
  | num (q : ℚ)
  | str (s : String)
  | arr (elems : List Json)
  | obj (fields : List (String × Json))

/-- Lookup of a key in an ordered association list (first match wins),
as Python dict lookup under the unique-keys invariant. -/
def lookupKey {β : Type} : List (String × β) → String → Option β
  | [], _ => none
  | (k, v) :: rest, key => if k = key then some v else lookupKey rest key

/-- Removal of a key from an ordered association list, preserving the order
of the other entries, as `dict.pop` does. -/
def removeKey {β : Type} : List (String × β) → String → List (String × β)
  | [], _ => []
  | (k, v) :: rest, key =>
      if k = key then removeKey rest key else (k, v) :: removeKey rest key

/-- An upstream HTTP response as seen through the `requests` library:
status code, raw body text, and the JSON parse of the body
(`json = none` models a body on which `response.json()` raises). -/
structure UpstreamResponse where
  status : Nat
  text : String
  json : Option Json

/-- The Python exceptions the proxy can raise or catch. -/
inductive PyErr where
  | valueError (msg : String)
  | typeError (msg : String)
  | attributeError (msg : String)
  | indexError (msg : String)
  | keyError (msg : String)
  | jsonDecodeError (msg : String)
  | transportError (msg : String)
  | badRequest (msg : String)
  | httpError (resp : UpstreamResponse)

/-- The `str(e)` text used by the catch-all handler at proxy_app.py:154.
For `httpError` it is never consulted there (that case is caught first at
line 146), so any rendering works; we use the raw body text. -/
def PyErr.message : PyErr → String
  | .valueError m => m
  | .typeError m => m
  | .attributeError m => m
  | .indexError m => m
  | .keyError m => m
  | .jsonDecodeError m => m
  | .transportError m => m
  | .badRequest m => m
  | .httpError resp => resp.text

/-- Python truthiness of a JSON value (`if not client_data` at line 108):
None, False, 0, "", [] and {} are falsy. -/
def Json.falsy : Json → Bool
  | .null => true
  | .bool b => !b
  | .num q => q == 0
  | .str s => s.isEmpty
  | .arr xs => xs.isEmpty
  | .obj fs => fs.isEmpty

/-- Python `value.get(key, default)`: dict lookup with a default; raises
`AttributeError` when the receiver is not a dict. -/
def Json.getD : Json → String → Json → Except PyErr Json
  | .obj fields, key, dflt => .ok ((lookupKey fields key).getD dflt)
  | _, _, _ => .error (.attributeError "object has no attribute get")

/-- Python `value[0]`: first element of a list (IndexError when empty),
first character of a string (IndexError when empty), KeyError on a dict,
TypeError on non-subscriptable values. -/
def Json.index0 : Json → Except PyErr Json
  | .arr (x :: _) => .ok x
  | .arr [] => .error (.indexError "list index out of range")
  | .str s =>
      if s.isEmpty then .error (.indexError "string index out of range")
      else .ok (.str s.front.toString)
  | .obj _ => .error (.keyError "0")
  | _ => .error (.typeError "object is not subscriptable")

/-- Python `value.pop(key, default)`: returns the value under the key (or
the default) together with the dict with that key removed; raises
`TypeError` on a list (list.pop wants an integer index) and
`AttributeError` on other non-dict values. -/
def Json.popD : Json → String → Json → Except PyErr (Json × Json)
  | .obj fields, key, dflt =>
      .ok ((lookupKey fields key).getD dflt, .obj (removeKey fields key))
  | .arr _, _, _ => .error (.typeError "list.pop with a string argument")
  | _, _, _ => .error (.attributeError "object has no attribute pop")

/-- Loop body of `transform_to_openai_format` (proxy_app.py lines 29-32):
one canonical turn becomes one OpenAI chat message.  The role becomes
"assistant" exactly when the role field equals "model"; the content is
`message.get("parts", [{}])[0].get("text", "")`. -/
def transformTurn (message : Json) : Except PyErr Json := do
  let roleVal ← message.getD "role" .null
  let role := match roleVal with
    | .str s => if s = "model" then "assistant" else "user"
    | _ => "user"
  let partsVal ← message.getD "parts" (.arr [.obj []])
  let firstPart ← partsVal.index0
  let text ← firstPart.getD "text" (.str "")
  return Json.obj [("role", .str role), ("content", text)]

/-- The sequence of values Python iterates over in
`for message in client_data.get("contents", [])`: list elements for a list,
keys for a dict, single-character strings for a string; other values are
not iterable (TypeError). -/
def pyIter : Json → Except PyErr (List Json)
  | .arr xs => .ok xs
  | .obj fs => .ok (fs.map fun p => Json.str p.1)
  | .str s => .ok (s.data.map fun c => Json.str c.toString)
  | _ => .error (.typeError "object is not iterable")

/-- The `for message in ...` loop of proxy_app.py lines 28-32: translate
the turns in order, stopping at the first raised exception. -/
def transformTurns : List Json → Except PyErr (List Json)
  | [] => .ok []
  | m :: rest => do
    let x ← transformTurn m
    let xs ← transformTurns rest
    return x :: xs

/-- proxy_app.py lines 26-33: converts a Gemini-style request into the list
of OpenAI chat messages. -/
def transform_to_openai_format (client_data : Json) : Except PyErr (List Json) := do
  let contents ← client_data.getD "contents" (.arr [])
  let msgs ← pyIter contents
  transformTurns msgs

/-- proxy_app.py lines 35-43: converts an OpenAI chat response into the
Gemini candidates shape.  Both reads default the choices list to `[{}]`
when the key is absent, then index `[0]`. -/
def transform_to_gemini_format (openai_response_json : Json) : Except PyErr Json := do
  let choices ← openai_response_json.getD "choices" (.arr [.obj []])
  let first ← choices.index0
  let message ← first.getD "message" (.obj [])
  let generated_text ← message.getD "content" (.str "")
  let choicesAgain ← openai_response_json.getD "choices" (.arr [.obj []])
  let firstAgain ← choicesAgain.index0
  let finishReason ← firstAgain.getD "finish_reason" (.str "STOP")
  return Json.obj [("candidates", Json.arr [
    Json.obj [
      ("content", Json.obj [("role", .str "model"),
                            ("parts", Json.arr [Json.obj [("text", generated_text)]])]),
      ("finishReason", finishReason)]])]





/-- Python `str()` of a JSON value, as interpolated into the f-string URL at
proxy_app.py:94.  It is exact for strings (the only case the source expects
and the only case any proof uses); the rendering of other values is
abbreviated. -/
def Json.pyStr : Json → String
  | .str s => s
  | .null => "None"
  | .bool true => "True"
  | .bool false => "False"
  | .num q => toString q
  | .arr _ => "<list>"
  | .obj _ => "<dict>"

/-- One outbound `requests.post(url, json=body, headers=headers, timeout=t)`
call as the handlers build it. -/
structure OutboundCall where
  url : String
  body : Json
  headers : List (String × String)
  timeout : ℚ

/-- Python `{**base, **extra}` dict merge as used for the headers at
proxy_app.py lines 65-69: keys of `base` keep their position (with the value
from `extra` when overridden), new keys of `extra` are appended. -/
def pyDictMerge (base extra : List (String × String)) : List (String × String) :=
  (base.map fun p =>
    match lookupKey extra p.1 with
    | some v => (p.1, v)
    | none => p) ++
  extra.filter fun q => (lookupKey base q.1).isNone

/-- Outcome of one run of `handle_openai_compatible`: the outbound call it
issued (none when an exception was raised before `requests.post`) and the
returned value or raised exception. -/
structure HandlerResult where
  call : Option OutboundCall
  result : Except PyErr Json

/-- The key-resolution idiom `user_api_key if user_api_key else os.getenv(env_key)`
(proxy_app.py lines 47 and 89): the caller-supplied key when it is a
non-empty string, otherwise the environment value (which may itself be
absent). -/
def pyKeyOr (user_api_key : String) (envVal : Option String) : Option String :=
  if user_api_key ≠ "" then some user_api_key else envVal

/-- proxy_app.py lines 45-76, `handle_openai_compatible`: the shared handler
for the OpenRouter and LLMost chat-completions APIs.  `env` is `os.getenv`;
`upstream` says what `requests.post` returned for the call it was given.
Key resolution is `user_api_key if user_api_key else os.getenv(env_key)`
followed by `if not api_key: raise ValueError(...)`; `raise_for_status`
raises exactly for statuses in [400, 600). -/
def handle_openai_compatible (client_data : Json) (user_api_key : String)
    (provider_name base_url env_key : String)
    (extra_headers : List (String × String)) (env : String → Option String)
    (upstream : OutboundCall → Except PyErr UpstreamResponse) : HandlerResult :=
  let keyMissing : PyErr := .valueError (provider_name ++
    " API key is missing. Not found in client request or on server (env var: " ++
    env_key ++ ").")
  match pyKeyOr user_api_key (env env_key) with
  | none => ⟨none, .error keyMissing⟩
  | some api_key =>
    if api_key = "" then ⟨none, .error keyMissing⟩
    else
      let api_url := base_url ++ "/chat/completions"
      match transform_to_openai_format client_data with
      | .error e => ⟨none, .error e⟩
      | .ok openai_messages =>
        match client_data.getD "modelName" (.str "default-model") with
        | .error e => ⟨none, .error e⟩
        | .ok modelVal =>
          match client_data.getD "generationConfig" (.obj []) with
          | .error e => ⟨none, .error e⟩
          | .ok genCfg =>
            match genCfg.getD "temperature" (.num (7/10)) with
            | .error e => ⟨none, .error e⟩
            | .ok temperature =>
              match genCfg.getD "maxOutputTokens" (.num 4096) with
              | .error e => ⟨none, .error e⟩
              | .ok max_tokens =>
                let payload := Json.obj [
                  ("model", modelVal),
                  ("messages", .arr openai_messages),
                  ("temperature", temperature),
                  ("max_tokens", max_tokens)]
                let headers := pyDictMerge
                  [("HTTP-Authorization", "Bearer " ++ api_key),
                   ("Content-Type", "application/json")] extra_headers
                let call : OutboundCall := ⟨api_url, payload, headers, 60⟩
                match upstream call with
                | .error e => ⟨some call, .error e⟩
                | .ok response =>
                  if 400 ≤ response.status ∧ response.status < 600 then
                    ⟨some call, .error (.httpError response)⟩
                  else
                    match response.json with
                    | none => ⟨some call, .error (.jsonDecodeError "Expecting value")⟩
                    | some rj => ⟨some call, transform_to_gemini_format rj⟩

/-- proxy_app.py:16. -/
def GEMINI_REQUEST_DELAY : ℚ := 11

/-- Duration `handle_gemini_request` sleeps at lines 82-86 when entered at
monotonic instant `now` with `last_gemini_request_time = last`: the shortfall
of the elapsed time against `GEMINI_REQUEST_DELAY`, or nothing. -/
def geminiSleepTime (last now : ℚ) : ℚ :=
  if now - last < GEMINI_REQUEST_DELAY then GEMINI_REQUEST_DELAY - (now - last) else 0

/-- Outcome of one run of `handle_gemini_request`: how long the limiter
slept, the outbound call (none when an exception preceded `requests.post`),
the returned value or raised exception, and the value of
`last_gemini_request_time` after the run. -/
structure GeminiResult where
  sleep : ℚ
  call : Option OutboundCall
  result : Except PyErr Json
  newLast : ℚ

/-- proxy_app.py lines 78-101, `handle_gemini_request`.  `last` is the
global `last_gemini_request_time` on entry, `now` the `time.monotonic()`
sample at line 82, and `rec` the `time.monotonic()` sample at line 100
(taken only if that line is reached).  The body posted is the client data
with `modelName` popped out of it; the key rides in the URL query string and
no headers are sent.  `last_gemini_request_time` is assigned at line 100,
after `raise_for_status` and before `response.json()`. -/
def handle_gemini_request (client_data : Json) (user_api_key : String)
    (env : String → Option String) (last now rec : ℚ)
    (upstream : OutboundCall → Except PyErr UpstreamResponse) : GeminiResult :=
  let sleep := geminiSleepTime last now
  let keyMissing : PyErr :=
    .valueError "Gemini API key is missing. Not found in client request or on server."
  match pyKeyOr user_api_key (env "GEMINI_API_KEY") with
  | none => ⟨sleep, none, .error keyMissing, last⟩
  | some api_key =>
    if api_key = "" then ⟨sleep, none, .error keyMissing, last⟩
    else
      match client_data.popD "modelName" (.str "gemini-1.5-flash-latest") with
      | .error e => ⟨sleep, none, .error e, last⟩
      | .ok (model_name, body) =>
        let api_url := "https://generativelanguage.googleapis.com/v1beta/models/" ++
          model_name.pyStr ++ ":generateContent?key=" ++ api_key
        let call : OutboundCall := ⟨api_url, body, [], 45⟩
        match upstream call with
        | .error e => ⟨sleep, some call, .error e, last⟩
        | .ok response =>
          if 400 ≤ response.status ∧ response.status < 600 then
            ⟨sleep, some call, .error (.httpError response), last⟩
          else
            match response.json with
            | some rj => ⟨sleep, some call, .ok rj, rec⟩
            | none => ⟨sleep, some call, .error (.jsonDecodeError "Expecting value"), rec⟩

/-- The JSON error body `jsonify({"error": {"message": msg}})`. -/
def errBody (msg : String) : Json :=
  .obj [("error", .obj [("message", .str msg)])]

/-- proxy_app.py lines 146-154, the two `except` clauses of `proxy_handler`:
a `requests.exceptions.HTTPError` passes the upstream status through, with
the upstream JSON body verbatim when it parses and a wrapped raw text
otherwise; every other exception becomes a 500 with a generic message. -/
def handleException : PyErr → Json × Nat
  | .httpError resp =>
    match resp.json with
    | some j => (j, resp.status)
    | none => (errBody resp.text, resp.status)
  | e => (errBody ("Proxy internal error: " ++ e.message), 500)

/-- What `request.get_json()` did at proxy_app.py:107: returned a parsed
JSON value, or raised.  Flask raises (a 400 `BadRequest`, or a 415
`UnsupportedMediaType` for a non-JSON content type) when the body is absent
or not parseable; the raise happens inside the `try` block, so the catch-all
`except` sees it.  `msg` is the `str()` of the raised exception. -/
inductive ParseOutcome where
  | raises (msg : String)
  | value (j : Json)

/-- Helper for `pyReplace`: scan the character list left to right and
replace each non-overlapping occurrence of the (nonempty) pattern.  The
fuel argument only bounds the number of scan steps so that the recursion is
structural; with a nonempty pattern, fuel equal to the input length is
never exhausted. -/
def pyReplaceAux (pat rep : List Char) : Nat → List Char → List Char
  | _, [] => []
  | 0, rest => rest
  | fuel + 1, c :: rest =>
    if pat.isPrefixOf (c :: rest) then
      rep ++ pyReplaceAux pat rep fuel ((c :: rest).drop pat.length)
    else
      c :: pyReplaceAux pat rep fuel rest

/-- Python `s.replace(old, new)` (proxy_app.py:113), replacing every
non-overlapping occurrence left to right.  The source only uses the
nonempty pattern "Bearer "; for an empty pattern this model is the
identity. -/
def pyReplace (s pat rep : String) : String :=
  if pat.data.isEmpty then s
  else ⟨pyReplaceAux pat.data rep.data s.data.length s.data⟩

/-- Python `s.lower()` (proxy_app.py:112) on ASCII text: uppercase latin
letters are shifted to lowercase, every other character is unchanged. -/
def pyLower (s : String) : String :=
  ⟨s.data.map fun c =>
    if 65 ≤ c.toNat ∧ c.toNat ≤ 90 then Char.ofNat (c.toNat + 32) else c⟩

/-- Outcome of the `try` block of `proxy_handler` (lines 106-144): the
returned `(body, status)` pair or the exception that escaped, the value of
`last_gemini_request_time` afterwards, and the outbound call made (none when
no provider call reached `requests.post`). -/
structure TryOutcome where
  result : Except PyErr (Json × Nat)
  newLast : ℚ
  call : Option OutboundCall

/-- proxy_app.py lines 107-144, the body of the `try` block: truthiness
check of the parsed body, `provider` pop (default "gemini") and lowercasing,
bearer-prefix strip of the Authorization header, and dispatch to the three
provider handlers; `jsonify(response_data)` returns status 200. -/
def proxy_try (j : Json) (authHeader : String) (env : String → Option String)
    (last now rec : ℚ)
    (upstream : OutboundCall → Except PyErr UpstreamResponse) : TryOutcome :=
  if j.falsy then ⟨.ok (errBody "Invalid JSON body", 400), last, none⟩
  else
    match j.popD "provider" (.str "gemini") with
    | .error e => ⟨.error e, last, none⟩
    | .ok (providerVal, client_data) =>
      match providerVal with
      | .str p =>
        let provider := pyLower p
        let user_api_key := pyReplace authHeader "Bearer " ""
        if provider = "llmost" then
          let r := handle_openai_compatible client_data user_api_key
            "LLMost" "https://llmost.ru/api/v1" "LLMOST_API_KEY" [] env upstream
          ⟨r.result.map fun d => (d, 200), last, r.call⟩
        else if provider = "openrouter" then
          let r := handle_openai_compatible client_data user_api_key
            "OpenRouter" "https://openrouter.ai/api/v1" "OPENROUTER_API_KEY"
            [("HTTP-Referer", "https://github.com/MrKins/Chronicles-of-Meterea"),
             ("X-Title", "Chronicles of Meterea")] env upstream
          ⟨r.result.map fun d => (d, 200), last, r.call⟩
        else if provider = "gemini" then
          let r := handle_gemini_request client_data user_api_key env last now rec upstream
          ⟨r.result.map fun d => (d, 200), r.newLast, r.call⟩
        else
          ⟨.ok (errBody ("Unsupported provider: " ++ provider), 400), last, none⟩
      | _ => ⟨.error (.attributeError "object has no attribute lower"), last, none⟩

/-- Outcome of one request through `proxy_handler`: the HTTP response
`(body, status)`, the value of `last_gemini_request_time` afterwards, and
the outbound call made, if any. -/
structure ProxyOutcome where
  response : Json × Nat
  newLast : ℚ
  call : Option OutboundCall

/-- proxy_app.py lines 103-154, `proxy_handler`: parse the body (under the
global `api_lock`), run the `try` block, and convert an escaped exception
through the two `except` clauses. -/
def proxy_handler (parse : ParseOutcome) (authHeader : String)
    (env : String → Option String) (last now rec : ℚ)
    (upstream : OutboundCall → Except PyErr UpstreamResponse) : ProxyOutcome :=
  match parse with
  | .raises msg => ⟨handleException (.badRequest msg), last, none⟩
  | .value j =>
    let t := proxy_try j authHeader env last now rec upstream
    ⟨match t.result with
     | .ok resp => resp
     | .error e => handleException e, t.newLast, t.call⟩







/-- Shape condition on a single turn under which the per-turn translation of
`transform_to_openai_format` cannot raise: the turn is a dict and its
`parts` entry is either absent or a list whose first element is a dict. -/
def turnOk : Json → Bool
  | .obj fields =>
    match lookupKey fields "parts" with
    | none => true
    | some (.arr (.obj _ :: _)) => true
    | _ => false
  | _ => false

/-- Modelled from the spec (section 4.1): the per-turn translation as the
spec words it — `model` maps to `assistant` and everything else to `user`,
and the content is the text of the first part, or "" when the turn has no
parts or the part has no text.  Stated separately from
`transform_to_openai_format` so the two can be compared. -/
def specTranslatedTurn : Json → Json
  | .obj fields =>
    let role := match lookupKey fields "role" with
      | some (.str s) => if s = "model" then "assistant" else "user"
      | _ => "user"
    let content := match lookupKey fields "parts" with
      | some (.arr (.obj pf :: _)) => (lookupKey pf "text").getD (.str "")
      | _ => Json.str ""
    .obj [("role", .str role), ("content", content)]
  | _ => .obj [("role", .str "user"), ("content", .str "")]

theorem gemini_sleep_eq (cd : Json) (u : String) (env : String → Option String)
    (last now rec : ℚ) (up : OutboundCall → Except PyErr UpstreamResponse) :
    (handle_gemini_request cd u env last now rec up).sleep = geminiSleepTime last now := by
  simp only [handle_gemini_request]
  (repeat' split) <;> rfl

theorem gemini_ok_newLast (cd : Json) (u : String) (env : String → Option String)
    (last now rec : ℚ) (up : OutboundCall → Except PyErr UpstreamResponse) :
    ∀ j, (handle_gemini_request cd u env last now rec up).result = .ok j →
    (handle_gemini_request cd u env last now rec up).newLast = rec := by
  simp only [handle_gemini_request]
  (repeat' split) <;> simp

theorem gemini_httpError_newLast (cd : Json) (u : String) (env : String → Option String)
    (last now rec : ℚ) (up : OutboundCall → Except PyErr UpstreamResponse) :
    ∀ resp, (handle_gemini_request cd u env last now rec up).result = .error (.httpError resp) →
    (handle_gemini_request cd u env last now rec up).newLast = last := by
  simp only [handle_gemini_request]
  (repeat' split) <;> simp

theorem gemini_transportError_newLast (cd : Json) (u : String) (env : String → Option String)
    (last now rec : ℚ) (up : OutboundCall → Except PyErr UpstreamResponse) :
    ∀ m, (handle_gemini_request cd u env last now rec up).result = .error (.transportError m) →
    (handle_gemini_request cd u env last now rec up).newLast = last := by
  simp only [handle_gemini_request]
  (repeat' split) <;> simp

theorem dispatch_lower_bound (last now : ℚ) :
    last + GEMINI_REQUEST_DELAY ≤ now + geminiSleepTime last now := by
  unfold geminiSleepTime
  split <;> linarith

/-- C1 (amended): when the first of two back-to-back Gemini requests
succeeds (so that `last_gemini_request_time` is recorded at line 100, at a
monotonic instant `rec1` no earlier than the dispatch of the first
`requests.post`), the second request's `requests.post` starts at least
`GEMINI_REQUEST_DELAY` after the first one started.  The dispatch instant
of a run entered at `now` is `now + sleep`, since the post directly follows
the limiter sleep of lines 82-86. -/
theorem gemini_request_spacing (cd1 cd2 : Json) (u1 u2 : String)
    (env1 env2 : String → Option String) (last1 now1 rec1 now2 rec2 : ℚ)
    (up1 up2 : OutboundCall → Except PyErr UpstreamResponse) (j1 : Json)
    (hok : (handle_gemini_request cd1 u1 env1 last1 now1 rec1 up1).result = .ok j1)
    (hrec : now1 + (handle_gemini_request cd1 u1 env1 last1 now1 rec1 up1).sleep ≤ rec1) :
    now1 + (handle_gemini_request cd1 u1 env1 last1 now1 rec1 up1).sleep + GEMINI_REQUEST_DELAY ≤
    now2 + (handle_gemini_request cd2 u2 env2
      (handle_gemini_request cd1 u1 env1 last1 now1 rec1 up1).newLast now2 rec2 up2).sleep := by
  rw [gemini_ok_newLast cd1 u1 env1 last1 now1 rec1 up1 j1 hok]
  rw [gemini_sleep_eq cd1 u1 env1 last1 now1 rec1 up1] at hrec ⊢
  rw [gemini_sleep_eq cd2 u2 env2 rec1 now2 rec2 up2]
  have h2 := dispatch_lower_bound rec1 now2
  linarith

/-- Witness for C1 (amended): a concrete pair of back-to-back successful
requests; the first enters at 0 with an idle limiter, sleeps 11, posts at
11 and records 12; the second enters at 13, sleeps 10, and posts at 23 ≥
11 + 11. -/
theorem gemini_request_spacing_witness :
    (handle_gemini_request (.obj []) "k" (fun _ => none) 0 0 12
        (fun _ => .ok ⟨200, "", some .null⟩)).result = .ok .null ∧
    (0 : ℚ) + (handle_gemini_request (.obj []) "k" (fun _ => none) 0 0 12
        (fun _ => .ok ⟨200, "", some .null⟩)).sleep ≤ 12 ∧
    (0 : ℚ) + (handle_gemini_request (.obj []) "k" (fun _ => none) 0 0 12
        (fun _ => .ok ⟨200, "", some .null⟩)).sleep + GEMINI_REQUEST_DELAY ≤
      13 + (handle_gemini_request (.obj []) "kk" (fun _ => none)
        (handle_gemini_request (.obj []) "k" (fun _ => none) 0 0 12
          (fun _ => .ok ⟨200, "", some .null⟩)).newLast 13 30
        (fun _ => .ok ⟨200, "", some .null⟩)).sleep := by
  have h1 : (handle_gemini_request (.obj []) "k" (fun _ => none) 0 0 12
      (fun _ => .ok ⟨200, "", some .null⟩)).result = .ok .null := rfl
  have h2 : (0 : ℚ) + (handle_gemini_request (.obj []) "k" (fun _ => none) 0 0 12
      (fun _ => .ok ⟨200, "", some .null⟩)).sleep ≤ 12 := by
    rw [gemini_sleep_eq]
    norm_num [geminiSleepTime, GEMINI_REQUEST_DELAY]
  exact ⟨h1, h2,
    gemini_request_spacing (.obj []) (.obj []) "k" "kk" (fun _ => none) (fun _ => none)
      0 0 12 13 30 (fun _ => .ok ⟨200, "", some .null⟩) (fun _ => .ok ⟨200, "", some .null⟩)
      .null h1 h2⟩

/-- Counterexample to C1 as stated: when the first outbound call is
dispatched but fails (HTTP 500), `last_gemini_request_time` is not
recorded, so a second request entering one second later is dispatched only
1 < 11 seconds after the first dispatch, although both requests dispatched
outbound calls. -/
theorem gemini_request_spacing_cex :
    (handle_gemini_request (.obj []) "k" (fun _ => none) 0 100 101
        (fun _ => .ok ⟨500, "err", none⟩)).call.isSome = true ∧
    (handle_gemini_request (.obj []) "k" (fun _ => none)
        (handle_gemini_request (.obj []) "k" (fun _ => none) 0 100 101
          (fun _ => .ok ⟨500, "err", none⟩)).newLast 101 102
        (fun _ => .ok ⟨200, "", some .null⟩)).call.isSome = true ∧
    101 + (handle_gemini_request (.obj []) "k" (fun _ => none)
        (handle_gemini_request (.obj []) "k" (fun _ => none) 0 100 101
          (fun _ => .ok ⟨500, "err", none⟩)).newLast 101 102
        (fun _ => .ok ⟨200, "", some .null⟩)).sleep <
      100 + (handle_gemini_request (.obj []) "k" (fun _ => none) 0 100 101
        (fun _ => .ok ⟨500, "err", none⟩)).sleep + GEMINI_REQUEST_DELAY := by
  have hfail : (handle_gemini_request (.obj []) "k" (fun _ => none) 0 100 101
      (fun _ => .ok ⟨500, "err", none⟩)).newLast = 0 :=
    gemini_httpError_newLast (.obj []) "k" (fun _ => none) 0 100 101
      (fun _ => .ok ⟨500, "err", none⟩) ⟨500, "err", none⟩ rfl
  refine ⟨rfl, ?_, ?_⟩
  · rw [hfail]
    rfl
  · rw [hfail, gemini_sleep_eq, gemini_sleep_eq]
    norm_num [geminiSleepTime, GEMINI_REQUEST_DELAY]

/-- C9: when the outbound Gemini call fails — `raise_for_status` raised on
a 4xx/5xx status, or `requests.post` raised a transport/timeout exception —
the assignment at line 100 is never reached, so `last_gemini_request_time`
keeps its previous value and a following request is delayed exactly as it
would have been without the failed request. -/
theorem gemini_failure_preserves_limiter (cd : Json) (u : String)
    (env : String → Option String) (last now rec : ℚ)
    (up : OutboundCall → Except PyErr UpstreamResponse)
    (h : (∃ resp, (handle_gemini_request cd u env last now rec up).result =
            .error (.httpError resp)) ∨
         (∃ m, (handle_gemini_request cd u env last now rec up).result =
            .error (.transportError m))) :
    (handle_gemini_request cd u env last now rec up).newLast = last := by
  obtain ⟨resp, h⟩ | ⟨m, h⟩ := h
  · exact gemini_httpError_newLast cd u env last now rec up resp h
  · exact gemini_transportError_newLast cd u env last now rec up m h

/-- Witness for C9: a concrete run whose upstream returned HTTP 500 leaves
the limiter timestamp at its previous value 3. -/
theorem gemini_failure_preserves_limiter_witness :
    (handle_gemini_request (.obj []) "k" (fun _ => none) 3 100 101
        (fun _ => .ok ⟨500, "err", none⟩)).newLast = 3 :=
  gemini_failure_preserves_limiter (.obj []) "k" (fun _ => none) 3 100 101
    (fun _ => .ok ⟨500, "err", none⟩) (Or.inl ⟨⟨500, "err", none⟩, rfl⟩)

/-- Counterexample to C2 as stated: on a present-but-empty `choices` list
the `[{}]` default of `.get("choices", [{}])` does not apply, and the `[0]`
subscript raises IndexError instead of yielding the `""`/"STOP" defaults. -/
theorem transform_to_gemini_format_cex :
    transform_to_gemini_format (.obj [("choices", .arr [])]) =
      .error (.indexError "list index out of range") := rfl

/-- C2 (amended): `transform_to_gemini_format` yields text "" and
finishReason "STOP" when `choices` is absent, and substitutes "" for a
missing message content and "STOP" for a missing finish_reason; but on a
present-and-empty `choices` list it raises IndexError rather than
degrading. -/
theorem transform_to_gemini_format_amended :
    (∀ fields, lookupKey fields "choices" = none →
      transform_to_gemini_format (.obj fields) =
        .ok (.obj [("candidates", Json.arr [Json.obj [
          ("content", Json.obj [("role", .str "model"),
            ("parts", Json.arr [Json.obj [("text", .str "")]])]),
          ("finishReason", .str "STOP")]])])) ∧
    (transform_to_gemini_format (.obj [("choices", .arr [])]) =
      .error (.indexError "list index out of range")) ∧
    (∀ cf rest, lookupKey cf "message" = none → lookupKey cf "finish_reason" = none →
      transform_to_gemini_format (.obj [("choices", .arr (.obj cf :: rest))]) =
        .ok (.obj [("candidates", Json.arr [Json.obj [
          ("content", Json.obj [("role", .str "model"),
            ("parts", Json.arr [Json.obj [("text", .str "")]])]),
          ("finishReason", .str "STOP")]])])) ∧
    (∀ cf mf rest, lookupKey cf "message" = some (.obj mf) →
      lookupKey mf "content" = none → lookupKey cf "finish_reason" = none →
      transform_to_gemini_format (.obj [("choices", .arr (.obj cf :: rest))]) =
        .ok (.obj [("candidates", Json.arr [Json.obj [
          ("content", Json.obj [("role", .str "model"),
            ("parts", Json.arr [Json.obj [("text", .str "")]])]),
          ("finishReason", .str "STOP")]])])) := by
  refine ⟨?_, rfl, ?_, ?_⟩
  · intro fields h
    simp [transform_to_gemini_format, Json.getD, Json.index0, lookupKey, h,
      bind, Except.bind, Functor.map, Except.map, pure, Except.pure]
  · intro cf rest h1 h2
    simp [transform_to_gemini_format, Json.getD, Json.index0, lookupKey, h1, h2,
      bind, Except.bind, Functor.map, Except.map, pure, Except.pure]
  · intro cf mf rest h1 h2 h3
    simp [transform_to_gemini_format, Json.getD, Json.index0, lookupKey, h1, h2, h3,
      bind, Except.bind, Functor.map, Except.map, pure, Except.pure]

/-- Witness for C2 (amended): the absent-choices case at the concrete input
`{"id": null}`. -/
theorem transform_to_gemini_format_amended_witness :
    transform_to_gemini_format (.obj [("id", .null)]) =
      .ok (.obj [("candidates", Json.arr [Json.obj [
        ("content", Json.obj [("role", .str "model"),
          ("parts", Json.arr [Json.obj [("text", .str "")]])]),
        ("finishReason", .str "STOP")]])]) :=
  transform_to_gemini_format_amended.1 [("id", .null)] rfl

theorem transformTurn_eq_spec (m : Json) (hm : turnOk m = true) :
    transformTurn m = .ok (specTranslatedTurn m) := by
  cases m with
  | obj fields =>
    simp only [turnOk] at hm
    simp only [transformTurn, specTranslatedTurn, Json.getD,
      bind, Except.bind, pure, Except.pure]
    cases hrole : lookupKey fields "role" with
    | none =>
      cases hparts : lookupKey fields "parts" with
      | none => simp [hrole, hparts, Json.index0, lookupKey]
      | some pv =>
        rw [hparts] at hm
        match pv, hm with
        | .arr (.obj pf :: tl), _ => simp [hrole, hparts, Json.index0, Json.getD]
    | some rv =>
      cases hparts : lookupKey fields "parts" with
      | none =>
        cases rv <;> simp [hrole, hparts, Json.index0, lookupKey]
      | some pv =>
        rw [hparts] at hm
        match pv, hm with
        | .arr (.obj pf :: tl), _ =>
          cases rv <;> simp [hrole, hparts, Json.index0, Json.getD]
  | null => simp [turnOk] at hm
  | bool b => simp [turnOk] at hm
  | num q => simp [turnOk] at hm
  | str s => simp [turnOk] at hm
  | arr xs => simp [turnOk] at hm

theorem transformTurns_eq_spec (msgs : List Json)
    (h : ∀ m ∈ msgs, turnOk m = true) :
    transformTurns msgs = .ok (msgs.map specTranslatedTurn) := by
  induction msgs with
  | nil => rfl
  | cons m rest ih =>
    have hm : turnOk m = true := h m (List.mem_cons_self m rest)
    have hrest := ih fun x hx => h x (List.mem_cons_of_mem m hx)
    simp [transformTurns, transformTurn_eq_spec m hm, hrest,
      bind, Except.bind, pure, Except.pure]

/-- Counterexample to C3 as stated: a turn whose `parts` list is present
but empty makes the `[{}]` default of `.get("parts", [{}])` inapplicable,
and the `[0]` subscript raises IndexError — the function does fail on this
input instead of yielding content "". -/
theorem transform_to_openai_format_cex :
    transform_to_openai_format (.obj [("contents", .arr [.obj [("parts", .arr [])]])]) =
      .error (.indexError "list index out of range") := rfl

/-- C3 (amended): on turns that are dicts whose `parts` entry is absent or
is a list starting with a dict, `transform_to_openai_format` maps each turn
in order to one message with role "assistant" exactly for role "model" and
"user" otherwise, content being the text of the first part ("" when absent);
an absent `contents` yields []; but a turn with a present-and-empty `parts`
list raises IndexError, so the function is not total. -/
theorem transform_to_openai_format_amended :
    (∀ fields msgs, lookupKey fields "contents" = some (.arr msgs) →
      (∀ m ∈ msgs, turnOk m = true) →
      transform_to_openai_format (.obj fields) = .ok (msgs.map specTranslatedTurn)) ∧
    (∀ fields, lookupKey fields "contents" = none →
      transform_to_openai_format (.obj fields) = .ok []) ∧
    (transform_to_openai_format (.obj [("contents", .arr [.obj [("parts", .arr [])]])]) =
      .error (.indexError "list index out of range")) := by
  refine ⟨?_, ?_, rfl⟩
  · intro fields msgs hc hok
    simp [transform_to_openai_format, Json.getD, hc, pyIter,
      bind, Except.bind, transformTurns_eq_spec msgs hok]
  · intro fields hc
    simp [transform_to_openai_format, Json.getD, hc, pyIter,
      bind, Except.bind, transformTurns]

/-- Witness for C3 (amended): three turns with roles model, user and system
translate, in order, to assistant, user and user, extracting the first part
text of each. -/
theorem transform_to_openai_format_amended_witness :
    transform_to_openai_format (.obj [("contents", .arr [
      .obj [("role", .str "model"), ("parts", .arr [.obj [("text", .str "a")]])],
      .obj [("role", .str "user"), ("parts", .arr [.obj [("text", .str "b")]])],
      .obj [("role", .str "system")]])]) =
    .ok [.obj [("role", .str "assistant"), ("content", .str "a")],
         .obj [("role", .str "user"), ("content", .str "b")],
         .obj [("role", .str "user"), ("content", .str "")]] :=
  transform_to_openai_format_amended.1
    [("contents", .arr [
      .obj [("role", .str "model"), ("parts", .arr [.obj [("text", .str "a")]])],
      .obj [("role", .str "user"), ("parts", .arr [.obj [("text", .str "b")]])],
      .obj [("role", .str "system")]])]
    [.obj [("role", .str "model"), ("parts", .arr [.obj [("text", .str "a")]])],
     .obj [("role", .str "user"), ("parts", .arr [.obj [("text", .str "b")]])],
     .obj [("role", .str "system")]]
    rfl (by decide)

/-- C10: a parsed body that is a falsy JSON value — empty dict, empty list,
0, false or null — fails the `if not client_data` truthiness test at line
108 and is answered with the 400 "Invalid JSON body" error, with no
outbound call, although the body was present and parseable. -/
theorem falsy_body_rejected (j : Json) (auth : String) (env : String → Option String)
    (last now rec : ℚ) (up : OutboundCall → Except PyErr UpstreamResponse)
    (h : j = .obj [] ∨ j = .arr [] ∨ j = .num 0 ∨ j = .bool false ∨ j = .null) :
    proxy_handler (.value j) auth env last now rec up =
      ⟨(errBody "Invalid JSON body", 400), last, none⟩ := by
  rcases h with rfl | rfl | rfl | rfl | rfl <;> rfl

/-- Witness for C10: the empty JSON object is rejected with the 400 error
and no outbound call. -/
theorem falsy_body_rejected_witness :
    proxy_handler (.value (.obj [])) "" (fun _ => none) 0 0 0
        (fun _ => .ok ⟨200, "", some .null⟩) =
      ⟨(errBody "Invalid JSON body", 400), 0, none⟩ :=
  falsy_body_rejected (.obj []) "" (fun _ => none) 0 0 0
    (fun _ => .ok ⟨200, "", some .null⟩) (Or.inl rfl)

/-- Counterexample to C5 as stated: an absent or unparseable body makes
`request.get_json()` raise inside the `try` block, and the catch-all
`except Exception` answers 500 "Proxy internal error", not a 400-class
error. -/
theorem proxy_unparseable_body_cex :
    (proxy_handler (.raises "400 Bad Request: The browser (or proxy) sent a request that this server could not understand.")
        "" (fun _ => none) 0 0 0 (fun _ => .ok ⟨200, "", some .null⟩)).response.2 = 500 ∧
    ¬ (proxy_handler (.raises "400 Bad Request: The browser (or proxy) sent a request that this server could not understand.")
        "" (fun _ => none) 0 0 0 (fun _ => .ok ⟨200, "", some .null⟩)).response.2 < 500 := by
  refine ⟨rfl, ?_⟩
  intro h
  simp only [show (proxy_handler (.raises "400 Bad Request: The browser (or proxy) sent a request that this server could not understand.")
      "" (fun _ => none) 0 0 0 (fun _ => .ok ⟨200, "", some .null⟩)).response.2 = 500 from rfl] at h
  exact absurd h (by decide)

/-- C5 (amended): an absent or unparseable body makes `request.get_json()`
raise, which the catch-all converts into a 500 "Proxy internal error"
response (not 400-class); a parsed request whose provider string is outside
the three supported names is answered 400 with a message containing the
(lowercased) provider name, and no outbound call is made. -/
theorem proxy_error_paths_amended :
    (∀ msg auth env last now rec up,
      proxy_handler (.raises msg) auth env last now rec up =
        ⟨(errBody ("Proxy internal error: " ++ msg), 500), last, none⟩) ∧
    (∀ fields p auth env last now rec up,
      Json.falsy (.obj fields) = false →
      lookupKey fields "provider" = some (.str p) →
      pyLower p ≠ "llmost" → pyLower p ≠ "openrouter" → pyLower p ≠ "gemini" →
      proxy_handler (.value (.obj fields)) auth env last now rec up =
        ⟨(errBody ("Unsupported provider: " ++ pyLower p), 400), last, none⟩) := by
  constructor
  · intro msg auth env last now rec up
    rfl
  · intro fields p auth env last now rec up hfalsy hp h1 h2 h3
    simp [proxy_handler, proxy_try, Json.popD, hfalsy, hp, h1, h2, h3]

/-- Witness for C5 (amended): the unknown provider "unknown-llm" with a
non-falsy body is answered 400 with the provider name in the message, no
outbound call made. -/
theorem proxy_error_paths_amended_witness :
    proxy_handler (.value (.obj [("provider", .str "unknown-llm")]))
        "" (fun _ => none) 0 0 0 (fun _ => .ok ⟨200, "", some .null⟩) =
      ⟨(errBody "Unsupported provider: unknown-llm", 400), 0, none⟩ :=
  proxy_error_paths_amended.2 [("provider", .str "unknown-llm")] "unknown-llm"
    "" (fun _ => none) 0 0 0 (fun _ => .ok ⟨200, "", some .null⟩)
    rfl rfl (by decide) (by decide) (by decide)

theorem lookupKey_filter_none {β : Type} (l : List (String × β))
    (pred : String × β → Bool) (k : String) (h : lookupKey l k = none) :
    lookupKey (l.filter pred) k = none := by
  induction l with
  | nil => rfl
  | cons p rest ih =>
    simp only [lookupKey] at h
    by_cases hpk : p.1 = k
    · simp [hpk] at h
    · have h2 : lookupKey rest k = none := by simpa [hpk] using h
      by_cases hp : pred p
      · simpa [List.filter_cons, hp, lookupKey, hpk] using ih h2
      · simpa [List.filter_cons, hp] using ih h2

theorem lookupKey_append_none {β : Type} (a b : List (String × β)) (k : String)
    (h : lookupKey a k = none) : lookupKey (a ++ b) k = lookupKey b k := by
  induction a with
  | nil => rfl
  | cons p rest ih =>
    simp only [lookupKey] at h
    by_cases hpk : p.1 = k
    · simp [hpk] at h
    · have h2 : lookupKey rest k = none := by simpa [hpk] using h
      simpa [lookupKey, hpk] using ih h2

theorem lookupKey_merged_httpAuth (v w : String) (extra : List (String × String))
    (heh : lookupKey extra "HTTP-Authorization" = none) :
    lookupKey (pyDictMerge [("HTTP-Authorization", v), ("Content-Type", w)] extra)
      "HTTP-Authorization" = some v := by
  simp [pyDictMerge, lookupKey, heh]

theorem lookupKey_merged_no_auth (v w : String) (extra : List (String × String))
    (h : lookupKey extra "Authorization" = none) :
    lookupKey (pyDictMerge [("HTTP-Authorization", v), ("Content-Type", w)] extra)
      "Authorization" = none := by
  have hbase : lookupKey ((([("HTTP-Authorization", v), ("Content-Type", w)] :
      List (String × String)).map fun p =>
        match lookupKey extra p.1 with
        | some z => (p.1, z)
        | none => p)) "Authorization" = none := by
    cases h1 : lookupKey extra "HTTP-Authorization" <;>
      cases h2 : lookupKey extra "Content-Type" <;>
        simp [lookupKey, h1, h2]
  rw [pyDictMerge, lookupKey_append_none _ _ _ hbase]
  exact lookupKey_filter_none extra _ "Authorization" h

theorem openai_call_shape (cd : Json) (u pn bu ek : String)
    (eh : List (String × String)) (env : String → Option String)
    (up : OutboundCall → Except PyErr UpstreamResponse) :
    ∀ c, (handle_openai_compatible cd u pn bu ek eh env up).call = some c →
    ∃ k, pyKeyOr u (env ek) = some k ∧ k ≠ "" ∧
    ∃ msgs mv gc temp maxtok,
      transform_to_openai_format cd = .ok msgs ∧
      cd.getD "modelName" (.str "default-model") = .ok mv ∧
      cd.getD "generationConfig" (.obj []) = .ok gc ∧
      gc.getD "temperature" (.num (7/10)) = .ok temp ∧
      gc.getD "maxOutputTokens" (.num 4096) = .ok maxtok ∧
      c = ⟨bu ++ "/chat/completions",
        .obj [("model", mv), ("messages", .arr msgs),
              ("temperature", temp), ("max_tokens", maxtok)],
        pyDictMerge [("HTTP-Authorization", "Bearer " ++ k),
                     ("Content-Type", "application/json")] eh,
        60⟩ := by
  simp only [handle_openai_compatible]
  (repeat' split) <;> intro c hc <;>
    first
      | exact Option.noConfusion hc
      | (rw [Option.some.injEq] at hc; subst hc;
         exact ⟨_, by assumption, by assumption,
                _, _, _, _, _, by assumption, by assumption, by assumption,
                by assumption, by assumption, rfl⟩)

theorem openai_no_key (cd : Json) (u pn bu ek : String)
    (eh : List (String × String)) (env : String → Option String)
    (up : OutboundCall → Except PyErr UpstreamResponse)
    (hu : u = "") (henv : env ek = none ∨ env ek = some "") :
    (handle_openai_compatible cd u pn bu ek eh env up).call = none ∧
    (handle_openai_compatible cd u pn bu ek eh env up).result =
      .error (.valueError (pn ++
        " API key is missing. Not found in client request or on server (env var: " ++
        ek ++ ").")) := by
  subst hu
  obtain henv | henv := henv <;>
    simp [handle_openai_compatible, pyKeyOr, henv]

theorem gemini_call_shape (cd : Json) (u : String) (env : String → Option String)
    (last now rec : ℚ) (up : OutboundCall → Except PyErr UpstreamResponse) :
    ∀ c, (handle_gemini_request cd u env last now rec up).call = some c →
    ∃ k, pyKeyOr u (env "GEMINI_API_KEY") = some k ∧ k ≠ "" ∧
    ∃ mv body, cd.popD "modelName" (.str "gemini-1.5-flash-latest") = .ok (mv, body) ∧
      c = ⟨"https://generativelanguage.googleapis.com/v1beta/models/" ++ mv.pyStr ++
            ":generateContent?key=" ++ k, body, [], 45⟩ := by
  simp only [handle_gemini_request]
  (repeat' split) <;> intro c hc <;>
    first
      | exact Option.noConfusion hc
      | (rw [Option.some.injEq] at hc; subst hc;
         exact ⟨_, by assumption, by assumption, _, _, by assumption, rfl⟩)

theorem gemini_no_key (cd : Json) (u : String) (env : String → Option String)
    (last now rec : ℚ) (up : OutboundCall → Except PyErr UpstreamResponse)
    (hu : u = "")
    (henv : env "GEMINI_API_KEY" = none ∨ env "GEMINI_API_KEY" = some "") :
    (handle_gemini_request cd u env last now rec up).call = none ∧
    (handle_gemini_request cd u env last now rec up).result =
      .error (.valueError
        "Gemini API key is missing. Not found in client request or on server.") := by
  subst hu
  obtain henv | henv := henv <;>
    simp [handle_gemini_request, pyKeyOr, henv]

/-- C7: for both handler variants the key used for the outbound call is the
caller-supplied key (the Authorization header value with the "Bearer "
prefix stripped at line 113) when it is non-empty, otherwise the provider's
environment variable; when neither yields a non-empty key, the handler
raises the ValueError of lines 49/91 without issuing any outbound call.
For the generic variant the key is observable in the HTTP-Authorization
header, for the Gemini variant in the URL query string. -/
theorem api_key_resolution (cd : Json) (auth u pn bu ek : String)
    (eh : List (String × String)) (env : String → Option String)
    (up : OutboundCall → Except PyErr UpstreamResponse) (last now rec : ℚ)
    (huser : u = pyReplace auth "Bearer " "")
    (heh : lookupKey eh "HTTP-Authorization" = none) :
    (u ≠ "" → ∀ c, (handle_openai_compatible cd u pn bu ek eh env up).call = some c →
      lookupKey c.headers "HTTP-Authorization" = some ("Bearer " ++ u)) ∧
    (∀ k0, u = "" → env ek = some k0 → k0 ≠ "" →
      ∀ c, (handle_openai_compatible cd u pn bu ek eh env up).call = some c →
      lookupKey c.headers "HTTP-Authorization" = some ("Bearer " ++ k0)) ∧
    (u = "" → env ek = none ∨ env ek = some "" →
      (handle_openai_compatible cd u pn bu ek eh env up).call = none ∧
      (handle_openai_compatible cd u pn bu ek eh env up).result =
        .error (.valueError (pn ++
          " API key is missing. Not found in client request or on server (env var: " ++
          ek ++ ")."))) ∧
    (u ≠ "" → ∀ c, (handle_gemini_request cd u env last now rec up).call = some c →
      ∃ mv body, cd.popD "modelName" (.str "gemini-1.5-flash-latest") = .ok (mv, body) ∧
        c.url = "https://generativelanguage.googleapis.com/v1beta/models/" ++
          mv.pyStr ++ ":generateContent?key=" ++ u) ∧
    (∀ k0, u = "" → env "GEMINI_API_KEY" = some k0 → k0 ≠ "" →
      ∀ c, (handle_gemini_request cd u env last now rec up).call = some c →
      ∃ mv body, cd.popD "modelName" (.str "gemini-1.5-flash-latest") = .ok (mv, body) ∧
        c.url = "https://generativelanguage.googleapis.com/v1beta/models/" ++
          mv.pyStr ++ ":generateContent?key=" ++ k0) ∧
    (u = "" → env "GEMINI_API_KEY" = none ∨ env "GEMINI_API_KEY" = some "" →
      (handle_gemini_request cd u env last now rec up).call = none ∧
      (handle_gemini_request cd u env last now rec up).result =
        .error (.valueError
          "Gemini API key is missing. Not found in client request or on server.")) := by
  refine ⟨?_, ?_, ?_, ?_, ?_, ?_⟩
  · intro hu c hc
    obtain ⟨k, hk, -, msgs, mv, gc, temp, maxtok, -, -, -, -, -, rfl⟩ :=
      openai_call_shape cd u pn bu ek eh env up c hc
    simp only [pyKeyOr, if_pos hu, Option.some.injEq] at hk
    subst hk
    exact lookupKey_merged_httpAuth _ _ eh heh
  · intro k0 hu henv hk0 c hc
    obtain ⟨k, hk, -, msgs, mv, gc, temp, maxtok, -, -, -, -, -, rfl⟩ :=
      openai_call_shape cd u pn bu ek eh env up c hc
    rw [pyKeyOr, if_neg (by simp [hu]), henv, Option.some.injEq] at hk
    subst hk
    exact lookupKey_merged_httpAuth _ _ eh heh
  · intro hu henv
    exact openai_no_key cd u pn bu ek eh env up hu henv
  · intro hu c hc
    obtain ⟨k, hk, -, mv, body, hpop, rfl⟩ :=
      gemini_call_shape cd u env last now rec up c hc
    simp only [pyKeyOr, if_pos hu, Option.some.injEq] at hk
    subst hk
    exact ⟨mv, body, hpop, rfl⟩
  · intro k0 hu henv hk0 c hc
    obtain ⟨k, hk, -, mv, body, hpop, rfl⟩ :=
      gemini_call_shape cd u env last now rec up c hc
    rw [pyKeyOr, if_neg (by simp [hu]), henv, Option.some.injEq] at hk
    subst hk
    exact ⟨mv, body, hpop, rfl⟩
  · intro hu henv
    exact gemini_no_key cd u env last now rec up hu henv

/-- Witness for C7: with caller key "secret" (stripped from header value
"Bearer secret"), the outbound OpenRouter call carries
HTTP-Authorization "Bearer secret". -/
theorem api_key_resolution_witness :
    lookupKey [("HTTP-Authorization", "Bearer secret"),
               ("Content-Type", "application/json"),
               ("HTTP-Referer", "https://github.com/MrKins/Chronicles-of-Meterea"),
               ("X-Title", "Chronicles of Meterea")] "HTTP-Authorization" =
      some "Bearer secret" :=
  (api_key_resolution (.obj [("contents", .arr [])]) "Bearer secret" "secret"
      "OpenRouter" "https://openrouter.ai/api/v1" "OPENROUTER_API_KEY"
      [("HTTP-Referer", "https://github.com/MrKins/Chronicles-of-Meterea"),
       ("X-Title", "Chronicles of Meterea")]
      (fun _ => none) (fun _ => .ok ⟨200, "", some .null⟩) 0 0 0
      rfl rfl).1 (by decide)
    ⟨"https://openrouter.ai/api/v1/chat/completions",
     .obj [("model", .str "default-model"), ("messages", .arr []),
           ("temperature", .num (7/10)), ("max_tokens", .num 4096)],
     [("HTTP-Authorization", "Bearer secret"),
      ("Content-Type", "application/json"),
      ("HTTP-Referer", "https://github.com/MrKins/Chronicles-of-Meterea"),
      ("X-Title", "Chronicles of Meterea")], 60⟩ rfl

/-- C6: once the key resolves and the body translates, the generic handler
posts to base_url/chat/completions the payload of lines 55-60 — requested
or default model name, translated turns, temperature defaulting to 0.7 and
max_tokens defaulting to 4096 — with the credential under the non-standard
HTTP-Authorization header name (no standard Authorization header) together
with the provider extra headers. -/
theorem openai_outbound_request_shape (kvs : List (String × Json))
    (u pn bu ek : String) (eh : List (String × String))
    (env : String → Option String) (up : OutboundCall → Except PyErr UpstreamResponse)
    (k : String) (msgs : List Json) (gc : List (String × Json))
    (hkey : pyKeyOr u (env ek) = some k) (hk : k ≠ "")
    (hmsgs : transform_to_openai_format (.obj kvs) = .ok msgs)
    (hgc : (lookupKey kvs "generationConfig").getD (.obj []) = .obj gc)
    (heh1 : lookupKey eh "HTTP-Authorization" = none)
    (heh2 : lookupKey eh "Authorization" = none) :
    (handle_openai_compatible (.obj kvs) u pn bu ek eh env up).call =
      some ⟨bu ++ "/chat/completions",
        .obj [("model", (lookupKey kvs "modelName").getD (.str "default-model")),
              ("messages", .arr msgs),
              ("temperature", (lookupKey gc "temperature").getD (.num (7/10))),
              ("max_tokens", (lookupKey gc "maxOutputTokens").getD (.num 4096))],
        pyDictMerge [("HTTP-Authorization", "Bearer " ++ k),
                     ("Content-Type", "application/json")] eh, 60⟩ ∧
    lookupKey (pyDictMerge [("HTTP-Authorization", "Bearer " ++ k),
      ("Content-Type", "application/json")] eh) "HTTP-Authorization" =
      some ("Bearer " ++ k) ∧
    lookupKey (pyDictMerge [("HTTP-Authorization", "Bearer " ++ k),
      ("Content-Type", "application/json")] eh) "Authorization" = none := by
  refine ⟨?_, lookupKey_merged_httpAuth _ _ eh heh1,
    lookupKey_merged_no_auth _ _ eh heh2⟩
  simp only [handle_openai_compatible, hkey, hmsgs, Json.getD, hgc, if_neg hk]
  (repeat' split) <;> rfl

/-- Witness for C6: the end-to-end scenario body — one user turn "hi" and
modelName "x" — produces the outbound payload with model "x", the
translated message, temperature 0.7 and max_tokens 4096, under the
HTTP-Authorization header plus the OpenRouter extra headers. -/
theorem openai_outbound_request_shape_witness :
    (handle_openai_compatible
        (.obj [("contents", .arr [.obj [("role", .str "user"),
            ("parts", .arr [.obj [("text", .str "hi")]])]]),
          ("modelName", .str "x")])
        "secret" "OpenRouter" "https://openrouter.ai/api/v1" "OPENROUTER_API_KEY"
        [("HTTP-Referer", "https://github.com/MrKins/Chronicles-of-Meterea"),
         ("X-Title", "Chronicles of Meterea")]
        (fun _ => none) (fun _ => .ok ⟨200, "", some .null⟩)).call =
      some ⟨"https://openrouter.ai/api/v1/chat/completions",
        .obj [("model", .str "x"),
              ("messages", .arr [.obj [("role", .str "user"), ("content", .str "hi")]]),
              ("temperature", .num (7/10)), ("max_tokens", .num 4096)],
        [("HTTP-Authorization", "Bearer secret"),
         ("Content-Type", "application/json"),
         ("HTTP-Referer", "https://github.com/MrKins/Chronicles-of-Meterea"),
         ("X-Title", "Chronicles of Meterea")], 60⟩ :=
  (openai_outbound_request_shape
    [("contents", .arr [.obj [("role", .str "user"),
        ("parts", .arr [.obj [("text", .str "hi")]])]]),
     ("modelName", .str "x")]
    "secret" "OpenRouter" "https://openrouter.ai/api/v1" "OPENROUTER_API_KEY"
    [("HTTP-Referer", "https://github.com/MrKins/Chronicles-of-Meterea"),
     ("X-Title", "Chronicles of Meterea")]
    (fun _ => none) (fun _ => .ok ⟨200, "", some .null⟩)
    "secret" [.obj [("role", .str "user"), ("content", .str "hi")]] []
    rfl (by decide) rfl rfl rfl rfl).1

theorem openai_const_http (cd : Json) (u pn bu ek : String)
    (eh : List (String × String)) (env : String → Option String)
    (status : Nat) (t : String) (jo : Option Json)
    (hs : 400 ≤ status) (hs2 : status < 600) :
    ∀ c, (handle_openai_compatible cd u pn bu ek eh env
        (fun _ => .ok ⟨status, t, jo⟩)).call = some c →
    (handle_openai_compatible cd u pn bu ek eh env
        (fun _ => .ok ⟨status, t, jo⟩)).result = .error (.httpError ⟨status, t, jo⟩) := by
  simp only [handle_openai_compatible, if_pos (And.intro hs hs2)]
  (repeat' split) <;> intro c hc <;> first | exact Option.noConfusion hc | rfl

theorem gemini_const_http (cd : Json) (u : String) (env : String → Option String)
    (last now rec : ℚ) (status : Nat) (t : String) (jo : Option Json)
    (hs : 400 ≤ status) (hs2 : status < 600) :
    ∀ c, (handle_gemini_request cd u env last now rec
        (fun _ => .ok ⟨status, t, jo⟩)).call = some c →
    (handle_gemini_request cd u env last now rec
        (fun _ => .ok ⟨status, t, jo⟩)).result = .error (.httpError ⟨status, t, jo⟩) := by
  simp only [handle_gemini_request, if_pos (And.intro hs hs2)]
  (repeat' split) <;> intro c hc <;> first | exact Option.noConfusion hc | rfl

theorem proxy_try_http (j : Json) (auth : String) (env : String → Option String)
    (last now rec : ℚ) (status : Nat) (t : String) (jo : Option Json)
    (hs : 400 ≤ status) (hs2 : status < 600) :
    ∀ c, (proxy_try j auth env last now rec (fun _ => .ok ⟨status, t, jo⟩)).call = some c →
    (proxy_try j auth env last now rec (fun _ => .ok ⟨status, t, jo⟩)).result =
      .error (.httpError ⟨status, t, jo⟩) := by
  simp only [proxy_try]
  (repeat' split) <;> intro c hc <;>
    first
      | exact Option.noConfusion hc
      | (rw [openai_const_http _ _ _ _ _ _ _ status t jo hs hs2 c hc]; rfl)
      | (rw [gemini_const_http _ _ _ _ _ _ status t jo hs hs2 c hc]; rfl)

/-- C8 (amended): when an outbound call was made and the upstream answered
with a 4xx or 5xx status — the statuses for which `raise_for_status`
raises — `proxy_handler` responds with the upstream status, passing the
upstream JSON body through verbatim when it parses and wrapping the raw
text in the error shape otherwise.  (Non-2xx statuses outside [400, 600),
such as 300, do not raise and are treated as success — see the
counterexample.) -/
theorem upstream_error_passthrough (parse : ParseOutcome) (auth : String)
    (env : String → Option String) (last now rec : ℚ)
    (status : Nat) (t : String) (jo : Option Json)
    (hs : 400 ≤ status) (hs2 : status < 600)
    (hcall : (proxy_handler parse auth env last now rec
        (fun _ => .ok ⟨status, t, jo⟩)).call.isSome = true) :
    (proxy_handler parse auth env last now rec (fun _ => .ok ⟨status, t, jo⟩)).response =
      ((match jo with | some uj => uj | none => errBody t), status) := by
  cases parse with
  | raises m => exact absurd hcall (by simp [proxy_handler])
  | value j =>
    simp only [proxy_handler] at hcall ⊢
    obtain ⟨c, hc⟩ := Option.isSome_iff_exists.mp hcall
    rw [proxy_try_http j auth env last now rec status t jo hs hs2 c hc]
    cases jo <;> rfl

/-- Witness for C8 (amended): an upstream 404 with the JSON body
`{"error": "nf"}` is passed through as that body under status 404. -/
theorem upstream_error_passthrough_witness :
    (proxy_handler (.value (.obj [("provider", .str "gemini"), ("contents", .arr [])]))
        "Bearer k" (fun _ => none) 0 0 0
        (fun _ => .ok ⟨404, "not found", some (.obj [("error", .str "nf")])⟩)).response =
      (.obj [("error", .str "nf")], 404) :=
  upstream_error_passthrough
    (.value (.obj [("provider", .str "gemini"), ("contents", .arr [])]))
    "Bearer k" (fun _ => none) 0 0 0 404 "not found"
    (some (.obj [("error", .str "nf")])) (by decide) (by decide) rfl

/-- Counterexample to C8 as stated: a non-2xx status outside [400, 600) is
not raised by `raise_for_status`; on an upstream 300 the proxy takes the
success path and answers 200 with the upstream JSON, not the upstream
status 300. -/
theorem upstream_error_passthrough_cex :
    (proxy_handler (.value (.obj [("provider", .str "gemini"), ("contents", .arr [])]))
        "Bearer k" (fun _ => none) 0 0 0
        (fun _ => .ok ⟨300, "multiple", some (.obj [("x", .num 1)])⟩)).call.isSome = true ∧
    (proxy_handler (.value (.obj [("provider", .str "gemini"), ("contents", .arr [])]))
        "Bearer k" (fun _ => none) 0 0 0
        (fun _ => .ok ⟨300, "multiple", some (.obj [("x", .num 1)])⟩)).response =
      (.obj [("x", .num 1)], 200) ∧ (200 : Nat) ≠ 300 :=
  ⟨rfl, rfl, by decide⟩

theorem gemini_success_run (kvs : List (String × Json)) (u k : String)
    (env : String → Option String) (last now rec : ℚ)
    (status : Nat) (t : String) (uj : Json)
    (hkey : pyKeyOr u (env "GEMINI_API_KEY") = some k) (hk : k ≠ "")
    (hstatus : ¬(400 ≤ status ∧ status < 600)) :
    handle_gemini_request (.obj kvs) u env last now rec
        (fun _ => .ok ⟨status, t, some uj⟩) =
      ⟨geminiSleepTime last now,
       some ⟨"https://generativelanguage.googleapis.com/v1beta/models/" ++
           ((lookupKey kvs "modelName").getD (.str "gemini-1.5-flash-latest")).pyStr ++
           ":generateContent?key=" ++ k,
         .obj (removeKey kvs "modelName"), [], 45⟩,
       .ok uj, rec⟩ := by
  simp only [handle_gemini_request, hkey, Json.popD, if_neg hk, if_neg hstatus]

/-- Counterexample to C4 as stated: with `modelName` present, the outbound
body is the inbound body with BOTH `provider` and `modelName` removed
(line 93 pops `modelName` into the URL), not with only `provider` removed. -/
theorem gemini_forward_cex :
    (proxy_handler (.value (.obj [("provider", .str "gemini"),
        ("modelName", .str "x"), ("contents", .arr [])]))
      "Bearer k" (fun _ => none) 0 0 0
      (fun _ => .ok ⟨200, "", some .null⟩)).call =
    some ⟨"https://generativelanguage.googleapis.com/v1beta/models/x:generateContent?key=k",
      .obj [("contents", .arr [])], [], 45⟩ ∧
    (Json.obj [("contents", .arr [])] ≠
      Json.obj [("modelName", .str "x"), ("contents", .arr [])]) := by
  refine ⟨rfl, ?_⟩
  simp

/-- C4 (amended): a request routed to the gemini provider posts to
`{baseURL}/models/{modelName}:generateContent?key={apiKey}` the inbound
body with the `provider` AND `modelName` fields removed; `modelName`
defaults to "gemini-1.5-flash-latest" when absent, the credential rides
only in the URL query string (no headers are sent), and on a success
status with a decodable JSON body the upstream JSON is returned unchanged
under proxy status 200. -/
theorem gemini_forward_amended (fields : List (String × Json)) (auth : String)
    (env : String → Option String) (last now rec : ℚ) (status : Nat) (t : String)
    (uj : Json) (k : String)
    (hfalsy : Json.falsy (.obj fields) = false)
    (hroute : lookupKey fields "provider" = some (.str "gemini") ∨
              lookupKey fields "provider" = none)
    (hkey : pyKeyOr (pyReplace auth "Bearer " "") (env "GEMINI_API_KEY") = some k)
    (hk : k ≠ "")
    (hstatus : ¬(400 ≤ status ∧ status < 600)) :
    (proxy_handler (.value (.obj fields)) auth env last now rec
        (fun _ => .ok ⟨status, t, some uj⟩)).call =
      some ⟨"https://generativelanguage.googleapis.com/v1beta/models/" ++
          ((lookupKey (removeKey fields "provider") "modelName").getD
            (.str "gemini-1.5-flash-latest")).pyStr ++
          ":generateContent?key=" ++ k,
        .obj (removeKey (removeKey fields "provider") "modelName"), [], 45⟩ ∧
    (proxy_handler (.value (.obj fields)) auth env last now rec
        (fun _ => .ok ⟨status, t, some uj⟩)).response = (uj, 200) := by
  have hrun := gemini_success_run (removeKey fields "provider")
    (pyReplace auth "Bearer " "") k env last now rec status t uj hkey hk hstatus
  have hlow : pyLower "gemini" = "gemini" := rfl
  obtain hroute | hroute := hroute <;>
    simp [proxy_handler, proxy_try, Json.popD, hfalsy, hroute, hlow, hrun,
      Except.map]

/-- Witness for C4 (amended): the end-to-end gemini scenario; `provider`
and `modelName` are stripped, `contents` is forwarded, the key "k" rides in
the URL, and the upstream JSON comes back unchanged under status 200. -/
theorem gemini_forward_amended_witness :
    (proxy_handler (.value (.obj [("provider", .str "gemini"),
        ("modelName", .str "x"),
        ("contents", .arr [.obj [("role", .str "user"),
          ("parts", .arr [.obj [("text", .str "hi")]])]])]))
      "Bearer k" (fun _ => none) 0 0 0
      (fun _ => .ok ⟨200, "", some (.obj [("candidates", .arr [])])⟩)).call =
      some ⟨"https://generativelanguage.googleapis.com/v1beta/models/x:generateContent?key=k",
        .obj [("contents", .arr [.obj [("role", .str "user"),
          ("parts", .arr [.obj [("text", .str "hi")]])]])], [], 45⟩ ∧
    (proxy_handler (.value (.obj [("provider", .str "gemini"),
        ("modelName", .str "x"),
        ("contents", .arr [.obj [("role", .str "user"),
          ("parts", .arr [.obj [("text", .str "hi")]])]])]))
      "Bearer k" (fun _ => none) 0 0 0
      (fun _ => .ok ⟨200, "", some (.obj [("candidates", .arr [])])⟩)).response =
      (.obj [("candidates", .arr [])], 200) :=
  gemini_forward_amended
    [("provider", .str "gemini"), ("modelName", .str "x"),
     ("contents", .arr [.obj [("role", .str "user"),
       ("parts", .arr [.obj [("text", .str "hi")]])]])]
    "Bearer k" (fun _ => none) 0 0 0 200 ""
    (.obj [("candidates", .arr [])]) "k"
    rfl (Or.inl rfl) rfl (by decide) (by decide)
